import Mathlib

/-!
Shallow embedding of the NanoCore FFI virtual machine
(`src/glue/ffi/nanocore_ffi.c`).  Machine integers are modelled as `Nat`
reduced modulo `2^64` where C wraps; signed 16-bit immediates become `Int`;
per-instance byte memory is a `List Nat` of bytes.  The per-handle registry
is elided: every operation acts directly on one `vm_instance_t` value, as
each C entry point does after the handle lookup succeeds.
-/

/-- Reduction modulo 2^64, the wrap applied by C `uint64_t` arithmetic. -/
def u64 (n : Nat) : Nat := n % 2 ^ 64

/-- `uint64_t` subtraction `a - b` with wraparound. -/
def sub64 (a b : Nat) : Nat := (a % 2 ^ 64 + (2 ^ 64 - b % 2 ^ 64)) % 2 ^ 64

/-- Value of an `Int` converted to `uint64_t` (two's complement wrap). -/
def ofInt64 (i : Int) : Nat := (i % (2 ^ 64 : Int)).toNat

/-- Reading a `uint64_t` bit pattern as `int64_t` (two's complement). -/
def toInt64 (n : Nat) : Int :=
  if n % 2 ^ 64 < 2 ^ 63 then ((n % 2 ^ 64 : Nat) : Int)
  else ((n % 2 ^ 64 : Nat) : Int) - 2 ^ 64

/-- Processor state record, mirroring `vm_state_t`. -/
structure vm_state_t where
  pc : Nat
  sp : Nat
  flags : Nat
  gprs : List Nat
  vregs : List (List Nat)
  perf_counters : List Nat
  cache_ctrl : Nat
  vbase : Nat
deriving Repr, DecidableEq

/-- VM instance, mirroring `vm_instance_t` (the `vm_id` bookkeeping field is
immaterial to the semantics and omitted; `num_breakpoints` is the length of
the `breakpoints` list). -/
structure vm_instance_t where
  state : vm_state_t
  memory : List Nat
  memory_size : Nat
  halted : Bool
  breakpoints : List Nat
deriving Repr, DecidableEq

def NANOCORE_OK : Int := 0
def NANOCORE_ERROR : Int := -1
def NANOCORE_ENOMEM : Int := -2
def NANOCORE_EINVAL : Int := -3

def EVENT_HALTED : Int := 0
def EVENT_BREAKPOINT : Int := 1
def EVENT_EXCEPTION : Int := 2

/-- `(instruction >> 26) & 0x3F`. -/
def opcode_of (instruction : Nat) : Nat := instruction / 2 ^ 26 % 64

/-- `(instruction >> 21) & 0x1F`. -/
def rd_of (instruction : Nat) : Nat := instruction / 2 ^ 21 % 32

/-- `(instruction >> 16) & 0x1F`. -/
def rs1_of (instruction : Nat) : Nat := instruction / 2 ^ 16 % 32

/-- `(instruction >> 11) & 0x1F`. -/
def rs2_of (instruction : Nat) : Nat := instruction / 2 ^ 11 % 32

/-- `(int16_t)(instruction & 0xFFFF)`: the low 16 bits read as signed. -/
def imm_s (instruction : Nat) : Int :=
  if instruction % 2 ^ 16 < 2 ^ 15 then ((instruction % 2 ^ 16 : Nat) : Int)
  else ((instruction % 2 ^ 16 : Nat) : Int) - 2 ^ 16

/-- Read of `gprs[i]` (the array always has 32 entries in C; out-of-range
reads default to 0 in the model). -/
def gpr (vm : vm_instance_t) (i : Nat) : Nat := vm.state.gprs.getD i 0

/-- The guarded register write `if (rd != 0) vm->state.gprs[rd] = value;`
that every executor case performs. -/
def write_gpr (vm : vm_instance_t) (rd : Nat) (value : Nat) : vm_instance_t :=
  if rd ≠ 0 then { vm with state := { vm.state with gprs := vm.state.gprs.set rd value } }
  else vm

/-- Little-endian 32-bit fetch `*(uint32_t*)(vm->memory + addr)`. -/
def load32 (mem : List Nat) (addr : Nat) : Nat :=
  mem.getD addr 0 + 2 ^ 8 * mem.getD (addr + 1) 0 +
    2 ^ 16 * mem.getD (addr + 2) 0 + 2 ^ 24 * mem.getD (addr + 3) 0

/-- Little-endian 64-bit store `*(uint64_t*)(vm->memory + addr) = val`. -/
def store64 (mem : List Nat) (addr val : Nat) : List Nat :=
  (((((((mem.set addr (val % 2 ^ 8)).set (addr + 1) (val / 2 ^ 8 % 2 ^ 8)).set
    (addr + 2) (val / 2 ^ 16 % 2 ^ 8)).set (addr + 3) (val / 2 ^ 24 % 2 ^ 8)).set
    (addr + 4) (val / 2 ^ 32 % 2 ^ 8)).set (addr + 5) (val / 2 ^ 40 % 2 ^ 8)).set
    (addr + 6) (val / 2 ^ 48 % 2 ^ 8)).set (addr + 7) (val / 2 ^ 56 % 2 ^ 8)

/-- `perf_counters[0]++; perf_counters[1]++;` — the second increment reads
the array produced by the first. -/
def bump_two (l : List Nat) : List Nat :=
  (l.set 0 (u64 (l.getD 0 0 + 1))).set 1 (u64 ((l.set 0 (u64 (l.getD 0 0 + 1))).getD 1 0 + 1))

/-- The counter update after the `switch`, followed by `return NANOCORE_OK;`. -/
def retire_counters (vm : vm_instance_t) : vm_instance_t × Int :=
  ({ vm with state := { vm.state with perf_counters := bump_two vm.state.perf_counters } },
    NANOCORE_OK)

/-- The statement `vm->state.gprs[0] = 0;` at the top of the executor. -/
def zero_r0 (vm : vm_instance_t) : vm_instance_t :=
  { vm with state := { vm.state with gprs := vm.state.gprs.set 0 0 } }

/-- The executor's `switch` on the decoded opcode.  HALT and the
unknown-opcode default return before the counter update. -/
def execute_dispatch (vm : vm_instance_t) (instruction : Nat) : vm_instance_t × Int :=
  if opcode_of instruction = 0x00 then
    retire_counters
      (write_gpr vm (rd_of instruction)
        (u64 (gpr vm (rs1_of instruction) + gpr vm (rs2_of instruction))))
  else if opcode_of instruction = 0x01 then
    retire_counters
      (write_gpr vm (rd_of instruction)
        (ofInt64 ((gpr vm (rs1_of instruction) : Int) - (gpr vm (rs2_of instruction) : Int))))
  else if opcode_of instruction = 0x02 then
    retire_counters
      (write_gpr vm (rd_of instruction)
        (u64 (gpr vm (rs1_of instruction) * gpr vm (rs2_of instruction))))
  else if opcode_of instruction = 0x04 then
    retire_counters
      (if rd_of instruction ≠ 0 ∧ gpr vm (rs2_of instruction) ≠ 0 then
        write_gpr vm (rd_of instruction)
          (gpr vm (rs1_of instruction) / gpr vm (rs2_of instruction))
      else vm)
  else if opcode_of instruction = 0x05 then
    retire_counters
      (if rd_of instruction ≠ 0 ∧ gpr vm (rs2_of instruction) ≠ 0 then
        write_gpr vm (rd_of instruction)
          (gpr vm (rs1_of instruction) % gpr vm (rs2_of instruction))
      else vm)
  else if opcode_of instruction = 0x06 then
    retire_counters
      (write_gpr vm (rd_of instruction)
        (Nat.land (gpr vm (rs1_of instruction)) (gpr vm (rs2_of instruction))))
  else if opcode_of instruction = 0x07 then
    retire_counters
      (write_gpr vm (rd_of instruction)
        (Nat.lor (gpr vm (rs1_of instruction)) (gpr vm (rs2_of instruction))))
  else if opcode_of instruction = 0x08 then
    retire_counters
      (write_gpr vm (rd_of instruction)
        (Nat.xor (gpr vm (rs1_of instruction)) (gpr vm (rs2_of instruction))))
  else if opcode_of instruction = 0x0A then
    retire_counters
      (write_gpr vm (rd_of instruction)
        (u64 (gpr vm (rs1_of instruction) <<< (gpr vm (rs2_of instruction) % 64))))
  else if opcode_of instruction = 0x0B then
    retire_counters
      (write_gpr vm (rd_of instruction)
        (gpr vm (rs1_of instruction) >>> (gpr vm (rs2_of instruction) % 64)))
  else if opcode_of instruction = 0x0F then
    retire_counters (write_gpr vm (rd_of instruction) (ofInt64 (imm_s instruction)))
  else if opcode_of instruction = 0x13 then
    retire_counters
      (if u64 (u64 (gpr vm (rs1_of instruction) + ofInt64 (imm_s instruction)) + 8) ≤
          vm.memory_size then
        { vm with memory := store64 vm.memory (u64 (gpr vm (rs1_of instruction) + ofInt64 (imm_s instruction))) (gpr vm (rd_of instruction)) }
      else vm)
  else if opcode_of instruction = 0x17 then
    retire_counters
      (if gpr vm (rd_of instruction) = gpr vm (rs1_of instruction) then
        { vm with state :=
            { vm.state with pc := u64 (vm.state.pc + ofInt64 (imm_s instruction * 2 - 4)) } }
      else vm)
  else if opcode_of instruction = 0x18 then
    retire_counters
      (if gpr vm (rd_of instruction) ≠ gpr vm (rs1_of instruction) then
        { vm with state :=
            { vm.state with pc := u64 (vm.state.pc + ofInt64 (imm_s instruction * 2 - 4)) } }
      else vm)
  else if opcode_of instruction = 0x19 then
    retire_counters
      (if toInt64 (gpr vm (rd_of instruction)) < toInt64 (gpr vm (rs1_of instruction)) then
        { vm with state :=
            { vm.state with pc := u64 (vm.state.pc + ofInt64 (imm_s instruction * 2 - 4)) } }
      else vm)
  else if opcode_of instruction = 0x21 then
    ({ vm with halted := true, state := { vm.state with flags := vm.state.flags ||| 0x80 } },
      EVENT_HALTED)
  else if opcode_of instruction = 0x22 then
    retire_counters vm
  else
    ({ vm with halted := true }, NANOCORE_ERROR)

/-- `execute_instruction`: force R0 to zero, then dispatch on the opcode. -/
def execute_instruction (vm0 : vm_instance_t) (instruction : Nat) : vm_instance_t × Int :=
  execute_dispatch (zero_r0 vm0) instruction

/-- `nanocore_vm_step` after a successful handle lookup: halted check, fetch
bounds check, breakpoint scan, fetch, PC advance, execute. -/
def nanocore_vm_step (vm : vm_instance_t) : vm_instance_t × Int :=
  if vm.halted then (vm, EVENT_HALTED)
  else if vm.memory_size < u64 (vm.state.pc + 4) then
    ({ vm with halted := true }, NANOCORE_ERROR)
  else if vm.state.pc ∈ vm.breakpoints then (vm, EVENT_BREAKPOINT)
  else
    execute_instruction { vm with state := { vm.state with pc := u64 (vm.state.pc + 4) } }
      (load32 vm.memory vm.state.pc)

/-- `nanocore_vm_create`: rejects `memory_size == 0`, otherwise builds a
zeroed instance with `sp = memory_size - 8` (uint64 wrap) and `pc = 0x10000`. -/
def nanocore_vm_create (memory_size : Nat) : Option vm_instance_t :=
  if memory_size = 0 then none
  else some
    { state :=
        { pc := 0x10000, sp := sub64 memory_size 8, flags := 0,
          gprs := List.replicate 32 0,
          vregs := List.replicate 16 (List.replicate 4 0),
          perf_counters := List.replicate 8 0, cache_ctrl := 0, vbase := 0 },
      memory := List.replicate memory_size 0,
      memory_size := memory_size, halted := false, breakpoints := [] }

/-- `nanocore_vm_reset`: `memset` the state record to zero, reinstate
`sp = memory_size - 8` and `pc = 0x10000`, clear `halted` and the
breakpoints; the memory buffer is not touched. -/
def nanocore_vm_reset (vm : vm_instance_t) : vm_instance_t × Int :=
  ({ vm with
      state :=
        { pc := 0x10000, sp := sub64 vm.memory_size 8, flags := 0,
          gprs := List.replicate 32 0,
          vregs := List.replicate 16 (List.replicate 4 0),
          perf_counters := List.replicate 8 0, cache_ctrl := 0, vbase := 0 },
      halted := false, breakpoints := [] }, NANOCORE_OK)

/-- `nanocore_vm_set_register` after handle validation: rejects
`reg_index >= 32`; index 0 is a silent no-op. -/
def nanocore_vm_set_register (vm : vm_instance_t) (reg_index value : Nat) :
    vm_instance_t × Int :=
  if 32 ≤ reg_index then (vm, NANOCORE_EINVAL)
  else if reg_index ≠ 0 then
    ({ vm with state := { vm.state with gprs := vm.state.gprs.set reg_index value } },
      NANOCORE_OK)
  else (vm, NANOCORE_OK)

/-- `nanocore_vm_set_breakpoint`: rejects a full table of 64 with
`NANOCORE_ERROR`, otherwise appends (duplicates included). -/
def nanocore_vm_set_breakpoint (vm : vm_instance_t) (address : Nat) :
    vm_instance_t × Int :=
  if 64 ≤ vm.breakpoints.length then (vm, NANOCORE_ERROR)
  else ({ vm with breakpoints := vm.breakpoints ++ [address] }, NANOCORE_OK)

/-- `nanocore_vm_clear_breakpoint`: removes the first matching entry by
shifting the rest down, `NANOCORE_ERROR` if absent. -/
def nanocore_vm_clear_breakpoint (vm : vm_instance_t) (address : Nat) :
    vm_instance_t × Int :=
  if address ∈ vm.breakpoints then
    ({ vm with breakpoints := vm.breakpoints.erase address }, NANOCORE_OK)
  else (vm, NANOCORE_ERROR)

/-- Byte copy `memcpy(vm->memory + address, data, size)`. -/
def memcpy_into (mem : List Nat) (address : Nat) (data : List Nat) : List Nat :=
  (List.range data.length).foldl (fun m i => m.set (address + i) (data.getD i 0)) mem

/-- `nanocore_vm_write_memory`: single bounds check then byte copy. -/
def nanocore_vm_write_memory (vm : vm_instance_t) (address : Nat) (data : List Nat) :
    vm_instance_t × Int :=
  if vm.memory_size < u64 (address + data.length) then (vm, NANOCORE_EINVAL)
  else ({ vm with memory := memcpy_into vm.memory address data }, NANOCORE_OK)

/-- `nanocore_vm_load_program`: bounds-checked copy plus `pc := address`. -/
def nanocore_vm_load_program (vm : vm_instance_t) (data : List Nat) (address : Nat) :
    vm_instance_t × Int :=
  if vm.memory_size < u64 (address + data.length) then (vm, NANOCORE_EINVAL)
  else
    ({ vm with
        memory := memcpy_into vm.memory address data
        state := { vm.state with pc := address } }, NANOCORE_OK)

/-- `nanocore_vm_run` with a positive instruction budget `max`: step while
not halted and the budget remains, propagating any non-OK step result; at
exit reports `EVENT_HALTED` when halted, else `NANOCORE_OK`.  (The C
`max_instructions == 0` unbounded mode is the same loop without the budget
and is not modelled as a total function.) -/
def nanocore_vm_run : vm_instance_t → Nat → vm_instance_t × Int
  | vm, 0 => (vm, if vm.halted then EVENT_HALTED else NANOCORE_OK)
  | vm, n + 1 =>
    if vm.halted then (vm, EVENT_HALTED)
    else if (nanocore_vm_step vm).2 ≠ NANOCORE_OK then nanocore_vm_step vm
    else nanocore_vm_run (nanocore_vm_step vm).1 n

/-- The state-mutating operations of the embedding API, used to describe the
reachable states of an instance. -/
inductive api_op where
  | step : api_op
  | run : Nat → api_op
  | reset : api_op
  | set_register : Nat → Nat → api_op
  | set_breakpoint : Nat → api_op
  | clear_breakpoint : Nat → api_op
  | write_memory : Nat → List Nat → api_op
  | load_program : List Nat → Nat → api_op
deriving Repr, DecidableEq

/-- Effect of one API operation on an instance. -/
def apply_op (vm : vm_instance_t) : api_op → vm_instance_t
  | .step => (nanocore_vm_step vm).1
  | .run n => (nanocore_vm_run vm n).1
  | .reset => (nanocore_vm_reset vm).1
  | .set_register i v => (nanocore_vm_set_register vm i v).1
  | .set_breakpoint a => (nanocore_vm_set_breakpoint vm a).1
  | .clear_breakpoint a => (nanocore_vm_clear_breakpoint vm a).1
  | .write_memory a d => (nanocore_vm_write_memory vm a d).1
  | .load_program d a => (nanocore_vm_load_program vm d a).1

/-- A sequence of API operations applied in order. -/
def apply_ops (vm : vm_instance_t) (ops : List api_op) : vm_instance_t :=
  ops.foldl apply_op vm

/-- The opcodes whose `switch` cases fall through to the counter update
(every defined opcode except HALT, which returns early). -/
def retire_opcodes : List Nat :=
  [0x00, 0x01, 0x02, 0x04, 0x05, 0x06, 0x07, 0x08, 0x0A, 0x0B, 0x0F, 0x13, 0x17, 0x18, 0x19, 0x22]

/-- All opcodes with a `case` in the executor's `switch`. -/
def known_opcodes : List Nat := retire_opcodes ++ [0x21]

/-- The effective address `gprs[rs1] + imm` of an ST instruction, as the
executor computes it (uint64 wrap). -/
def st_effective_addr (vm : vm_instance_t) (instr : Nat) : Nat :=
  u64 (vm.state.gprs.getD (rs1_of instr) 0 + ofInt64 (imm_s instr))

/-- Little-endian byte image of a list of 32-bit instruction words. -/
def words_to_bytes : List Nat → List Nat
  | [] => []
  | w :: ws =>
    w % 2 ^ 8 :: w / 2 ^ 8 % 2 ^ 8 :: w / 2 ^ 16 % 2 ^ 8 :: w / 2 ^ 24 % 2 ^ 8 ::
      words_to_bytes ws

/-- A zeroed processor state with the given `pc` and `sp`, used to build
small concrete instances for witnesses and counterexamples. -/
def mk_state (pc sp : Nat) : vm_state_t :=
  { pc := pc, sp := sp, flags := 0, gprs := List.replicate 32 0,
    vregs := List.replicate 16 (List.replicate 4 0),
    perf_counters := List.replicate 8 0, cache_ctrl := 0, vbase := 0 }

/-- Concrete instance: 8 zero bytes of memory, a breakpoint at the PC. -/
def vmC1 : vm_instance_t :=
  { state := mk_state 0 0, memory := List.replicate 8 0, memory_size := 8,
    halted := false, breakpoints := [0] }

/-- Concrete instance holding the 33-instruction program of §8 scenario 1:
32 `ADD R1, R0, R0` words followed by HALT, loaded at address 0. -/
def vm33 : vm_instance_t :=
  { state := mk_state 0 124,
    memory := words_to_bytes (List.replicate 32 0x00200000 ++ [0x84000000]),
    memory_size := 132, halted := false, breakpoints := [] }

/-- Concrete instance whose next instruction is `ST R0, [R0 + 28]` with
only 32 bytes of memory, so the store at 28 overruns by 4 bytes. -/
def vmS : vm_instance_t :=
  { state := mk_state 0 24, memory := words_to_bytes [0x4C00001C] ++ List.replicate 28 0,
    memory_size := 32, halted := false, breakpoints := [] }

/-- Concrete instance whose next instruction word has opcode 0x3F. -/
def vmU : vm_instance_t :=
  { state := mk_state 0 24, memory := words_to_bytes [0xFC000000] ++ List.replicate 28 0,
    memory_size := 32, halted := false, breakpoints := [] }

/-- Concrete instance whose next instruction is `BEQ R0, R0, +3`
(always taken). -/
def vmBr : vm_instance_t :=
  { state := mk_state 0 24, memory := words_to_bytes [0x5C000003] ++ List.replicate 28 0,
    memory_size := 32, halted := false, breakpoints := [] }

/-- Concrete instance whose next instruction is `HALT`. -/
def vmH : vm_instance_t :=
  { state := mk_state 0 24, memory := words_to_bytes [0x84000000] ++ List.replicate 28 0,
    memory_size := 32, halted := false, breakpoints := [] }

/-- Concrete instance with a misaligned in-range PC (`pc = 2`). -/
def vmMis : vm_instance_t :=
  { state := mk_state 2 24, memory := List.replicate 32 0, memory_size := 32,
    halted := false, breakpoints := [] }

/-- The instance produced by `nanocore_vm_create 4`: four bytes of memory,
`sp` wrapped to `2^64 - 4`, the default entry point far out of range. -/
def vmC5 : vm_instance_t :=
  { state := mk_state 0x10000 (sub64 4 8), memory := List.replicate 4 0, memory_size := 4,
    halted := false, breakpoints := [] }

theorem getD_set_ne (l : List Nat) (i j a : Nat) (h : i ≠ j) :
    (l.set i a).getD j 0 = l.getD j 0 := by
  induction l generalizing i j with
  | nil => rfl
  | cons x xs ih =>
    cases i with
    | zero =>
      cases j with
      | zero => exact absurd rfl h
      | succ j => rfl
    | succ i =>
      cases j with
      | zero => rfl
      | succ j => exact ih i j (fun hij => h (by omega))

theorem getD_set_lt (l : List Nat) (i a : Nat) (h : i < l.length) :
    (l.set i a).getD i 0 = a := by
  induction l generalizing i with
  | nil => simp at h
  | cons x xs ih =>
    cases i with
    | zero => rfl
    | succ i => exact ih i (by simpa using h)

theorem getD_set_zero_self (l : List Nat) : (l.set 0 0).getD 0 0 = 0 := by
  cases l <;> rfl

theorem write_gpr_gpr0 (vm : vm_instance_t) (rd v : Nat) :
    (write_gpr vm rd v).state.gprs.getD 0 0 = vm.state.gprs.getD 0 0 := by
  unfold write_gpr
  split
  · exact getD_set_ne _ _ _ _ (by assumption)
  · rfl

theorem write_gpr_counters (vm : vm_instance_t) (rd v : Nat) :
    (write_gpr vm rd v).state.perf_counters = vm.state.perf_counters := by
  unfold write_gpr
  split <;> rfl

theorem write_gpr_memory (vm : vm_instance_t) (rd v : Nat) :
    (write_gpr vm rd v).memory = vm.memory := by
  unfold write_gpr
  split <;> rfl

theorem write_gpr_halted (vm : vm_instance_t) (rd v : Nat) :
    (write_gpr vm rd v).halted = vm.halted := by
  unfold write_gpr
  split <;> rfl

theorem write_gpr_breakpoints (vm : vm_instance_t) (rd v : Nat) :
    (write_gpr vm rd v).breakpoints = vm.breakpoints := by
  unfold write_gpr
  split <;> rfl

/-- Every `switch` case either falls through to the counter update on an
instance agreeing with the input except for gprs/memory/pc, or is the HALT
case, or is the unknown-opcode default. -/
theorem execute_dispatch_shape (vm : vm_instance_t) (instr : Nat) :
    (opcode_of instr ∈ retire_opcodes ∧ ∃ vmx : vm_instance_t,
      execute_dispatch vm instr = retire_counters vmx ∧
      vmx.state.gprs.getD 0 0 = vm.state.gprs.getD 0 0 ∧
      vmx.breakpoints = vm.breakpoints ∧
      vmx.state.perf_counters = vm.state.perf_counters ∧
      vmx.halted = vm.halted) ∨
    (opcode_of instr = 0x21 ∧ execute_dispatch vm instr =
      ({ vm with halted := true, state := { vm.state with flags := vm.state.flags ||| 0x80 } },
        EVENT_HALTED)) ∨
    (opcode_of instr ∉ known_opcodes ∧
      execute_dispatch vm instr = ({ vm with halted := true }, NANOCORE_ERROR)) := by
  unfold execute_dispatch
  by_cases h00 : opcode_of instr = 0x00
  · rw [if_pos h00]
    exact Or.inl ⟨by simp [retire_opcodes, h00], _, rfl, write_gpr_gpr0 _ _ _,
      write_gpr_breakpoints _ _ _, write_gpr_counters _ _ _, write_gpr_halted _ _ _⟩
  rw [if_neg h00]
  by_cases h01 : opcode_of instr = 0x01
  · rw [if_pos h01]
    exact Or.inl ⟨by simp [retire_opcodes, h01], _, rfl, write_gpr_gpr0 _ _ _,
      write_gpr_breakpoints _ _ _, write_gpr_counters _ _ _, write_gpr_halted _ _ _⟩
  rw [if_neg h01]
  by_cases h02 : opcode_of instr = 0x02
  · rw [if_pos h02]
    exact Or.inl ⟨by simp [retire_opcodes, h02], _, rfl, write_gpr_gpr0 _ _ _,
      write_gpr_breakpoints _ _ _, write_gpr_counters _ _ _, write_gpr_halted _ _ _⟩
  rw [if_neg h02]
  by_cases h04 : opcode_of instr = 0x04
  · rw [if_pos h04]
    refine Or.inl ⟨by simp [retire_opcodes, h04], _, rfl, ?_, ?_, ?_, ?_⟩ <;>
      split <;>
        first
          | rfl
          | exact write_gpr_gpr0 _ _ _
          | exact write_gpr_breakpoints _ _ _
          | exact write_gpr_counters _ _ _
          | exact write_gpr_halted _ _ _
  rw [if_neg h04]
  by_cases h05 : opcode_of instr = 0x05
  · rw [if_pos h05]
    refine Or.inl ⟨by simp [retire_opcodes, h05], _, rfl, ?_, ?_, ?_, ?_⟩ <;>
      split <;>
        first
          | rfl
          | exact write_gpr_gpr0 _ _ _
          | exact write_gpr_breakpoints _ _ _
          | exact write_gpr_counters _ _ _
          | exact write_gpr_halted _ _ _
  rw [if_neg h05]
  by_cases h06 : opcode_of instr = 0x06
  · rw [if_pos h06]
    exact Or.inl ⟨by simp [retire_opcodes, h06], _, rfl, write_gpr_gpr0 _ _ _,
      write_gpr_breakpoints _ _ _, write_gpr_counters _ _ _, write_gpr_halted _ _ _⟩
  rw [if_neg h06]
  by_cases h07 : opcode_of instr = 0x07
  · rw [if_pos h07]
    exact Or.inl ⟨by simp [retire_opcodes, h07], _, rfl, write_gpr_gpr0 _ _ _,
      write_gpr_breakpoints _ _ _, write_gpr_counters _ _ _, write_gpr_halted _ _ _⟩
  rw [if_neg h07]
  by_cases h08 : opcode_of instr = 0x08
  · rw [if_pos h08]
    exact Or.inl ⟨by simp [retire_opcodes, h08], _, rfl, write_gpr_gpr0 _ _ _,
      write_gpr_breakpoints _ _ _, write_gpr_counters _ _ _, write_gpr_halted _ _ _⟩
  rw [if_neg h08]
  by_cases h0A : opcode_of instr = 0x0A
  · rw [if_pos h0A]
    exact Or.inl ⟨by simp [retire_opcodes, h0A], _, rfl, write_gpr_gpr0 _ _ _,
      write_gpr_breakpoints _ _ _, write_gpr_counters _ _ _, write_gpr_halted _ _ _⟩
  rw [if_neg h0A]
  by_cases h0B : opcode_of instr = 0x0B
  · rw [if_pos h0B]
    exact Or.inl ⟨by simp [retire_opcodes, h0B], _, rfl, write_gpr_gpr0 _ _ _,
      write_gpr_breakpoints _ _ _, write_gpr_counters _ _ _, write_gpr_halted _ _ _⟩
  rw [if_neg h0B]
  by_cases h0F : opcode_of instr = 0x0F
  · rw [if_pos h0F]
    exact Or.inl ⟨by simp [retire_opcodes, h0F], _, rfl, write_gpr_gpr0 _ _ _,
      write_gpr_breakpoints _ _ _, write_gpr_counters _ _ _, write_gpr_halted _ _ _⟩
  rw [if_neg h0F]
  by_cases h13 : opcode_of instr = 0x13
  · rw [if_pos h13]
    refine Or.inl ⟨by simp [retire_opcodes, h13], _, rfl, ?_, ?_, ?_, ?_⟩ <;>
      split <;>
        first
          | rfl
          | exact write_gpr_gpr0 _ _ _
          | exact write_gpr_breakpoints _ _ _
          | exact write_gpr_counters _ _ _
          | exact write_gpr_halted _ _ _
  rw [if_neg h13]
  by_cases h17 : opcode_of instr = 0x17
  · rw [if_pos h17]
    refine Or.inl ⟨by simp [retire_opcodes, h17], _, rfl, ?_, ?_, ?_, ?_⟩ <;>
      split <;>
        first
          | rfl
          | exact write_gpr_gpr0 _ _ _
          | exact write_gpr_breakpoints _ _ _
          | exact write_gpr_counters _ _ _
          | exact write_gpr_halted _ _ _
  rw [if_neg h17]
  by_cases h18 : opcode_of instr = 0x18
  · rw [if_pos h18]
    refine Or.inl ⟨by simp [retire_opcodes, h18], _, rfl, ?_, ?_, ?_, ?_⟩ <;>
      split <;>
        first
          | rfl
          | exact write_gpr_gpr0 _ _ _
          | exact write_gpr_breakpoints _ _ _
          | exact write_gpr_counters _ _ _
          | exact write_gpr_halted _ _ _
  rw [if_neg h18]
  by_cases h19 : opcode_of instr = 0x19
  · rw [if_pos h19]
    refine Or.inl ⟨by simp [retire_opcodes, h19], _, rfl, ?_, ?_, ?_, ?_⟩ <;>
      split <;>
        first
          | rfl
          | exact write_gpr_gpr0 _ _ _
          | exact write_gpr_breakpoints _ _ _
          | exact write_gpr_counters _ _ _
          | exact write_gpr_halted _ _ _
  rw [if_neg h19]
  by_cases h21 : opcode_of instr = 0x21
  · rw [if_pos h21]
    exact Or.inr (Or.inl ⟨h21, rfl⟩)
  rw [if_neg h21]
  by_cases h22 : opcode_of instr = 0x22
  · rw [if_pos h22]
    exact Or.inl ⟨by simp [retire_opcodes, h22], vm, rfl, rfl, rfl, rfl, rfl⟩
  rw [if_neg h22]
  exact Or.inr (Or.inr ⟨by
    simp [known_opcodes, retire_opcodes, h00, h01, h02, h04, h05, h06, h07, h08, h0A, h0B,
      h0F, h13, h17, h18, h19, h21, h22], rfl⟩)

theorem retire_counters_gprs (vm : vm_instance_t) :
    (retire_counters vm).1.state.gprs = vm.state.gprs := rfl

theorem retire_counters_halted (vm : vm_instance_t) :
    (retire_counters vm).1.halted = vm.halted := rfl

theorem retire_counters_breakpoints (vm : vm_instance_t) :
    (retire_counters vm).1.breakpoints = vm.breakpoints := rfl

theorem retire_counters_memory (vm : vm_instance_t) :
    (retire_counters vm).1.memory = vm.memory := rfl

theorem zero_r0_gpr0 (vm : vm_instance_t) : (zero_r0 vm).state.gprs.getD 0 0 = 0 :=
  getD_set_zero_self _

theorem execute_instruction_gpr0 (vm : vm_instance_t) (instr : Nat) :
    (execute_instruction vm instr).1.state.gprs.getD 0 0 = 0 := by
  unfold execute_instruction
  rcases execute_dispatch_shape (zero_r0 vm) instr with
    ⟨_, vmx, heq, hg, _, _, _⟩ | ⟨_, heq⟩ | ⟨_, heq⟩
  · rw [heq, retire_counters_gprs, hg]
    exact zero_r0_gpr0 vm
  · rw [heq]
    exact zero_r0_gpr0 vm
  · rw [heq]
    exact zero_r0_gpr0 vm

theorem execute_instruction_breakpoints (vm : vm_instance_t) (instr : Nat) :
    (execute_instruction vm instr).1.breakpoints = vm.breakpoints := by
  unfold execute_instruction
  rcases execute_dispatch_shape (zero_r0 vm) instr with
    ⟨_, vmx, heq, _, hb, _, _⟩ | ⟨_, heq⟩ | ⟨_, heq⟩
  · rw [heq, retire_counters_breakpoints, hb]
    rfl
  · rw [heq]
    rfl
  · rw [heq]
    rfl

theorem step_gpr0 (vm : vm_instance_t) (h : vm.state.gprs.getD 0 0 = 0) :
    (nanocore_vm_step vm).1.state.gprs.getD 0 0 = 0 := by
  unfold nanocore_vm_step
  split
  · exact h
  split
  · exact h
  split
  · exact h
  · exact execute_instruction_gpr0 _ _

theorem step_breakpoints (vm : vm_instance_t) :
    (nanocore_vm_step vm).1.breakpoints = vm.breakpoints := by
  unfold nanocore_vm_step
  split
  · rfl
  split
  · rfl
  split
  · rfl
  · exact execute_instruction_breakpoints _ _

theorem run_gpr0 (n : Nat) (vm : vm_instance_t) (h : vm.state.gprs.getD 0 0 = 0) :
    (nanocore_vm_run vm n).1.state.gprs.getD 0 0 = 0 := by
  induction n generalizing vm with
  | zero => exact h
  | succ n ih =>
    rw [nanocore_vm_run]
    split
    · exact h
    split
    · exact step_gpr0 vm h
    · exact ih _ (step_gpr0 vm h)

theorem run_breakpoints (n : Nat) (vm : vm_instance_t) :
    (nanocore_vm_run vm n).1.breakpoints = vm.breakpoints := by
  induction n generalizing vm with
  | zero => rfl
  | succ n ih =>
    rw [nanocore_vm_run]
    split
    · rfl
    split
    · exact step_breakpoints vm
    · exact (ih _).trans (step_breakpoints vm)

theorem apply_op_gpr0 (vm : vm_instance_t) (op : api_op)
    (h : vm.state.gprs.getD 0 0 = 0) : (apply_op vm op).state.gprs.getD 0 0 = 0 := by
  cases op with
  | step => exact step_gpr0 vm h
  | run n => exact run_gpr0 n vm h
  | reset => rfl
  | set_register i v =>
    show (nanocore_vm_set_register vm i v).1.state.gprs.getD 0 0 = 0
    unfold nanocore_vm_set_register
    split
    · exact h
    split
    · exact (getD_set_ne _ _ _ _ (by assumption)).trans h
    · exact h
  | set_breakpoint a =>
    show (nanocore_vm_set_breakpoint vm a).1.state.gprs.getD 0 0 = 0
    unfold nanocore_vm_set_breakpoint
    split
    · exact h
    · exact h
  | clear_breakpoint a =>
    show (nanocore_vm_clear_breakpoint vm a).1.state.gprs.getD 0 0 = 0
    unfold nanocore_vm_clear_breakpoint
    split
    · exact h
    · exact h
  | write_memory a d =>
    show (nanocore_vm_write_memory vm a d).1.state.gprs.getD 0 0 = 0
    unfold nanocore_vm_write_memory
    split
    · exact h
    · exact h
  | load_program d a =>
    show (nanocore_vm_load_program vm d a).1.state.gprs.getD 0 0 = 0
    unfold nanocore_vm_load_program
    split
    · exact h
    · exact h

theorem apply_op_bplen (vm : vm_instance_t) (op : api_op)
    (h : vm.breakpoints.length ≤ 64) : (apply_op vm op).breakpoints.length ≤ 64 := by
  cases op with
  | step =>
    rw [show (apply_op vm api_op.step).breakpoints = vm.breakpoints from step_breakpoints vm]
    exact h
  | run n =>
    rw [show (apply_op vm (api_op.run n)).breakpoints = vm.breakpoints from run_breakpoints n vm]
    exact h
  | reset => exact Nat.zero_le 64
  | set_register i v =>
    show (nanocore_vm_set_register vm i v).1.breakpoints.length ≤ 64
    unfold nanocore_vm_set_register
    split
    · exact h
    split
    · exact h
    · exact h
  | set_breakpoint a =>
    show (nanocore_vm_set_breakpoint vm a).1.breakpoints.length ≤ 64
    unfold nanocore_vm_set_breakpoint
    split
    · exact h
    · show (vm.breakpoints ++ [a]).length ≤ 64
      simp only [List.length_append, List.length_singleton]
      omega
  | clear_breakpoint a =>
    show (nanocore_vm_clear_breakpoint vm a).1.breakpoints.length ≤ 64
    unfold nanocore_vm_clear_breakpoint
    split
    · exact le_trans (List.Sublist.length_le (List.erase_sublist _ _)) h
    · exact h
  | write_memory a d =>
    show (nanocore_vm_write_memory vm a d).1.breakpoints.length ≤ 64
    unfold nanocore_vm_write_memory
    split
    · exact h
    · exact h
  | load_program d a =>
    show (nanocore_vm_load_program vm d a).1.breakpoints.length ≤ 64
    unfold nanocore_vm_load_program
    split
    · exact h
    · exact h

theorem apply_ops_gpr0 (ops : List api_op) (vm : vm_instance_t)
    (h : vm.state.gprs.getD 0 0 = 0) : (apply_ops vm ops).state.gprs.getD 0 0 = 0 := by
  induction ops generalizing vm with
  | nil => exact h
  | cons op ops ih => exact ih _ (apply_op_gpr0 vm op h)

theorem apply_ops_bplen (ops : List api_op) (vm : vm_instance_t)
    (h : vm.breakpoints.length ≤ 64) : (apply_ops vm ops).breakpoints.length ≤ 64 := by
  induction ops generalizing vm with
  | nil => exact h
  | cons op ops ih => exact ih _ (apply_op_bplen vm op h)

theorem create_gpr0 (size : Nat) (vm0 : vm_instance_t)
    (hc : nanocore_vm_create size = some vm0) : vm0.state.gprs.getD 0 0 = 0 := by
  unfold nanocore_vm_create at hc
  split at hc
  · exact absurd hc (by simp)
  · cases hc
    rfl

theorem create_breakpoints (size : Nat) (vm0 : vm_instance_t)
    (hc : nanocore_vm_create size = some vm0) : vm0.breakpoints = [] := by
  unfold nanocore_vm_create at hc
  split at hc
  · exact absurd hc (by simp)
  · cases hc
    rfl

theorem retire_counters_pc (vm : vm_instance_t) :
    (retire_counters vm).1.state.pc = vm.state.pc := rfl

theorem retire_counters_counters (vm : vm_instance_t) :
    (retire_counters vm).1.state.perf_counters = bump_two vm.state.perf_counters := rfl

theorem bump_two_getD0 (l : List Nat) (h : 0 < l.length) :
    (bump_two l).getD 0 0 = u64 (l.getD 0 0 + 1) := by
  unfold bump_two
  rw [getD_set_ne _ 1 0 _ (by omega), getD_set_lt]
  simpa using h

theorem bump_two_getD1 (l : List Nat) (h : 2 ≤ l.length) :
    (bump_two l).getD 1 0 = u64 (l.getD 1 0 + 1) := by
  unfold bump_two
  rw [getD_set_lt, getD_set_ne _ 0 1 _ (by omega)]
  simpa using h

theorem getD_set_zero_of (l : List Nat) (i : Nat) (h : l.getD 0 0 = 0) :
    (l.set 0 0).getD i 0 = l.getD i 0 := by
  cases i with
  | zero => rw [getD_set_zero_self, h]
  | succ i => exact getD_set_ne l 0 (i + 1) 0 (by omega)

theorem gpr_zero_r0 (vm : vm_instance_t) (i : Nat) (h0 : vm.state.gprs.getD 0 0 = 0) :
    gpr (zero_r0 vm) i = gpr vm i := getD_set_zero_of _ _ h0

theorem execute_dispatch_retire (vm : vm_instance_t) (instr : Nat)
    (hop : opcode_of instr ∈ retire_opcodes) :
    ∃ vmx : vm_instance_t, execute_dispatch vm instr = retire_counters vmx ∧
      vmx.state.perf_counters = vm.state.perf_counters ∧ vmx.halted = vm.halted := by
  rcases execute_dispatch_shape vm instr with
    ⟨_, vmx, heq, _, _, hc, hh⟩ | ⟨h21, _⟩ | ⟨hu, _⟩
  · exact ⟨vmx, heq, hc, hh⟩
  · rw [h21] at hop
    exact absurd hop (by decide)
  · exact absurd (List.mem_append_left _ hop) hu

theorem execute_instruction_counters_bump (vm : vm_instance_t) (instr : Nat)
    (hop : opcode_of instr ∈ retire_opcodes) (hlen : 2 ≤ vm.state.perf_counters.length) :
    (execute_instruction vm instr).1.state.perf_counters.getD 0 0 =
        u64 (vm.state.perf_counters.getD 0 0 + 1) ∧
      (execute_instruction vm instr).1.state.perf_counters.getD 1 0 =
        u64 (vm.state.perf_counters.getD 1 0 + 1) := by
  unfold execute_instruction
  obtain ⟨vmx, heq, hc, _⟩ := execute_dispatch_retire (zero_r0 vm) instr hop
  rw [heq, retire_counters_counters, hc]
  have hlen2 : 2 ≤ (zero_r0 vm).state.perf_counters.length := hlen
  exact ⟨bump_two_getD0 _ (by omega), bump_two_getD1 _ hlen2⟩

theorem execute_instruction_halt (vm : vm_instance_t) (instr : Nat)
    (hop : opcode_of instr = 0x21) :
    execute_instruction vm instr =
      ({ zero_r0 vm with
          halted := true
          state := { (zero_r0 vm).state with flags := (zero_r0 vm).state.flags ||| 0x80 } },
        EVENT_HALTED) := by
  unfold execute_instruction
  rcases execute_dispatch_shape (zero_r0 vm) instr with
    ⟨hm, _, _, _, _, _, _⟩ | ⟨_, heq⟩ | ⟨hu, _⟩
  · rw [hop] at hm
    exact absurd hm (by decide)
  · exact heq
  · exact absurd (show opcode_of instr ∈ known_opcodes by rw [hop]; decide) hu

theorem execute_instruction_unknown (vm : vm_instance_t) (instr : Nat)
    (hop : opcode_of instr ∉ known_opcodes) :
    execute_instruction vm instr = ({ zero_r0 vm with halted := true }, NANOCORE_ERROR) := by
  unfold execute_instruction
  rcases execute_dispatch_shape (zero_r0 vm) instr with
    ⟨hm, _, _, _, _, _, _⟩ | ⟨h21, _⟩ | ⟨_, heq⟩
  · exact absurd (List.mem_append_left _ hm) hop
  · exact absurd (show opcode_of instr ∈ known_opcodes by rw [h21]; decide) hop
  · exact heq

theorem execute_instruction_st_oob (vm : vm_instance_t) (instr : Nat)
    (hop : opcode_of instr = 0x13) (h0 : vm.state.gprs.getD 0 0 = 0)
    (hoob : vm.memory_size < u64 (st_effective_addr vm instr + 8)) :
    (execute_instruction vm instr).1.memory = vm.memory ∧
      (execute_instruction vm instr).1.halted = vm.halted ∧
      (execute_instruction vm instr).2 = NANOCORE_OK := by
  unfold execute_instruction execute_dispatch
  rw [hop]
  norm_num
  rw [gpr_zero_r0 vm _ h0]
  have hoob2 :
      ¬ (u64 (u64 (gpr vm (rs1_of instr) + ofInt64 (imm_s instr)) + 8) ≤
        (zero_r0 vm).memory_size) := Nat.not_le.mpr hoob
  rw [if_neg hoob2]
  exact ⟨rfl, rfl, rfl⟩

theorem execute_instruction_branch_taken (vm : vm_instance_t) (instr : Nat)
    (h0 : vm.state.gprs.getD 0 0 = 0)
    (ht : (opcode_of instr = 0x17 ∧ gpr vm (rd_of instr) = gpr vm (rs1_of instr)) ∨
      (opcode_of instr = 0x18 ∧ gpr vm (rd_of instr) ≠ gpr vm (rs1_of instr)) ∨
      (opcode_of instr = 0x19 ∧
        toInt64 (gpr vm (rd_of instr)) < toInt64 (gpr vm (rs1_of instr)))) :
    (execute_instruction vm instr).1.state.pc =
      u64 (vm.state.pc + ofInt64 (imm_s instr * 2 - 4)) := by
  unfold execute_instruction execute_dispatch
  rcases ht with ⟨hop, hc⟩ | ⟨hop, hc⟩ | ⟨hop, hc⟩
  · rw [hop]
    norm_num
    rw [gpr_zero_r0 vm _ h0, gpr_zero_r0 vm _ h0, if_pos hc, retire_counters_pc]
    rfl
  · rw [hop]
    norm_num
    rw [gpr_zero_r0 vm _ h0, gpr_zero_r0 vm _ h0, if_neg hc, retire_counters_pc]
    rfl
  · rw [hop]
    norm_num
    rw [gpr_zero_r0 vm _ h0, gpr_zero_r0 vm _ h0, if_pos hc, retire_counters_pc]
    rfl

theorem branch_wrap_arith (pc : Nat) (i : Int) :
    u64 (u64 (pc + 4) + ofInt64 (i * 2 - 4)) = u64 (pc + ofInt64 (i * 2)) := by
  unfold u64 ofInt64
  omega

/-- C1 (amended): when the PC sits on a breakpoint and the fetch is in
bounds, vm_step returns BREAKPOINT leaving the instance entirely unchanged
(no execution, no PC advance, no retirement); because nothing changed, the
immediately subsequent vm_step again returns BREAKPOINT instead of
executing the instruction at the breakpoint address. -/
theorem c1_breakpoint_noexec (vm : vm_instance_t) (hh : vm.halted = false)
    (hb : u64 (vm.state.pc + 4) ≤ vm.memory_size) (hm : vm.state.pc ∈ vm.breakpoints) :
    nanocore_vm_step vm = (vm, EVENT_BREAKPOINT) ∧
      nanocore_vm_step (nanocore_vm_step vm).1 = (vm, EVENT_BREAKPOINT) := by
  have h1 : nanocore_vm_step vm = (vm, EVENT_BREAKPOINT) := by
    unfold nanocore_vm_step
    rw [if_neg (by simp [hh]), if_neg (Nat.not_lt.mpr hb), if_pos hm]
  refine ⟨h1, ?_⟩
  rw [h1]
  exact h1

/-- Witness for C1 on a concrete instance with a breakpoint at PC 0. -/
theorem c1_breakpoint_noexec_witness :
    nanocore_vm_step vmC1 = (vmC1, EVENT_BREAKPOINT) ∧
      nanocore_vm_step (nanocore_vm_step vmC1).1 = (vmC1, EVENT_BREAKPOINT) :=
  c1_breakpoint_noexec vmC1 rfl (by decide) (by decide)

/-- C1 counterexample: after the first BREAKPOINT return, the next vm_step
with the breakpoint still set returns BREAKPOINT again — it does not fetch,
execute, advance the PC, or retire the instruction at the breakpoint. -/
theorem c1_counterexample :
    (nanocore_vm_step (nanocore_vm_step vmC1).1).2 = EVENT_BREAKPOINT ∧
      (nanocore_vm_step (nanocore_vm_step vmC1).1).2 ≠ NANOCORE_OK ∧
      (nanocore_vm_step (nanocore_vm_step vmC1).1).1.state.pc = vmC1.state.pc ∧
      (nanocore_vm_step (nanocore_vm_step vmC1).1).1.state.perf_counters.getD 0 0 = 0 := by
  decide

/-- C2 (amended): every instruction whose case falls through the switch
increments perf_counters[0] and [1] by one (mod 2^64), but HALT returns
before the counter update and is not counted; after running the
33-instruction program of §8 scenario 1 to completion, perf_counters[0]
equals 32, not 33. -/
theorem c2_retire_counters :
    (∀ vm : vm_instance_t, ∀ instr : Nat, opcode_of instr ∈ retire_opcodes →
      2 ≤ vm.state.perf_counters.length →
      (execute_instruction vm instr).1.state.perf_counters.getD 0 0 =
          u64 (vm.state.perf_counters.getD 0 0 + 1) ∧
        (execute_instruction vm instr).1.state.perf_counters.getD 1 0 =
          u64 (vm.state.perf_counters.getD 1 0 + 1)) ∧
      (∀ vm : vm_instance_t, ∀ instr : Nat, opcode_of instr = 0x21 →
        (execute_instruction vm instr).1.state.perf_counters = vm.state.perf_counters) ∧
      ((nanocore_vm_run vm33 40).1.halted = true ∧
        (nanocore_vm_run vm33 40).1.state.perf_counters.getD 0 0 = 32) := by
  refine ⟨execute_instruction_counters_bump, ?_, by decide⟩
  intro vm instr hop
  rw [execute_instruction_halt vm instr hop]
  rfl

/-- Witness for C2: a NOP retires and bumps both counters; a HALT leaves
them untouched. -/
theorem c2_retire_counters_witness :
    ((execute_instruction vmH 0x88000000).1.state.perf_counters.getD 0 0 =
        u64 (vmH.state.perf_counters.getD 0 0 + 1) ∧
      (execute_instruction vmH 0x88000000).1.state.perf_counters.getD 1 0 =
        u64 (vmH.state.perf_counters.getD 1 0 + 1)) ∧
      (execute_instruction vmH 0x84000000).1.state.perf_counters = vmH.state.perf_counters :=
  ⟨c2_retire_counters.1 vmH 0x88000000 (by decide) (by decide),
    c2_retire_counters.2.1 vmH 0x84000000 (by decide)⟩

/-- C2 counterexample: HALT does not increment perf_counters[0], and the
completed 33-instruction run reports 32 retirements, not 33. -/
theorem c2_counterexample :
    (execute_instruction vmH 0x84000000).1.state.perf_counters.getD 0 0 = 0 ∧
      (nanocore_vm_run vm33 40).1.halted = true ∧
      (nanocore_vm_run vm33 40).1.state.perf_counters.getD 0 0 = 32 ∧
      (nanocore_vm_run vm33 40).1.state.perf_counters.getD 0 0 ≠ 33 := by
  decide

/-- C3 (amended): an executed ST whose effective address A has A + 8 >
memory_size leaves memory unchanged, but the store is silently skipped:
the instance does not halt and the instruction retires with NANOCORE_OK
rather than raising EXCEPTION. -/
theorem c3_st_oob_skipped (vm : vm_instance_t) (instr : Nat)
    (hop : opcode_of instr = 0x13) (h0 : vm.state.gprs.getD 0 0 = 0)
    (hoob : vm.memory_size < u64 (st_effective_addr vm instr + 8)) :
    (execute_instruction vm instr).1.memory = vm.memory ∧
      (execute_instruction vm instr).1.halted = vm.halted ∧
      (execute_instruction vm instr).2 = NANOCORE_OK ∧
      (execute_instruction vm instr).2 ≠ EVENT_EXCEPTION := by
  obtain ⟨h1, h2, h3⟩ := execute_instruction_st_oob vm instr hop h0 hoob
  refine ⟨h1, h2, h3, ?_⟩
  rw [h3]
  decide

/-- Witness for C3: `ST R0, [R0 + 28]` with 32 bytes of memory. -/
theorem c3_st_oob_skipped_witness :
    (execute_instruction vmS 0x4C00001C).1.memory = vmS.memory ∧
      (execute_instruction vmS 0x4C00001C).1.halted = vmS.halted ∧
      (execute_instruction vmS 0x4C00001C).2 = NANOCORE_OK ∧
      (execute_instruction vmS 0x4C00001C).2 ≠ EVENT_EXCEPTION :=
  c3_st_oob_skipped vmS 0x4C00001C (by decide) (by decide) (by decide)

/-- C3 counterexample: stepping the out-of-bounds ST leaves the instance
running and returns OK, not EXCEPTION, contradicting the claimed
transition to halted. -/
theorem c3_counterexample :
    (nanocore_vm_step vmS).1.halted = false ∧ (nanocore_vm_step vmS).2 = NANOCORE_OK ∧
      (nanocore_vm_step vmS).2 ≠ EVENT_EXCEPTION ∧
      (nanocore_vm_step vmS).1.memory = vmS.memory := by
  decide

/-- C4 (amended): a fetched word with an undefined opcode makes vm_step
return NANOCORE_ERROR (-1) — not the EXCEPTION event code 2 — while halted
becomes true and perf_counters are unchanged. -/
theorem c4_unknown_opcode (vm : vm_instance_t) (instr : Nat) (hh : vm.halted = false)
    (hb : u64 (vm.state.pc + 4) ≤ vm.memory_size) (hnb : vm.state.pc ∉ vm.breakpoints)
    (hf : load32 vm.memory vm.state.pc = instr) (hop : opcode_of instr ∉ known_opcodes) :
    (nanocore_vm_step vm).2 = NANOCORE_ERROR ∧ (nanocore_vm_step vm).2 ≠ EVENT_EXCEPTION ∧
      (nanocore_vm_step vm).1.halted = true ∧
      (nanocore_vm_step vm).1.state.perf_counters = vm.state.perf_counters := by
  unfold nanocore_vm_step
  rw [if_neg (by simp [hh]), if_neg (Nat.not_lt.mpr hb), if_neg hnb, hf,
    execute_instruction_unknown _ instr hop]
  exact ⟨rfl, show NANOCORE_ERROR ≠ EVENT_EXCEPTION by decide, rfl, rfl⟩

/-- Witness for C4 on the concrete opcode 0x3F. -/
theorem c4_unknown_opcode_witness :
    (nanocore_vm_step vmU).2 = NANOCORE_ERROR ∧ (nanocore_vm_step vmU).2 ≠ EVENT_EXCEPTION ∧
      (nanocore_vm_step vmU).1.halted = true ∧
      (nanocore_vm_step vmU).1.state.perf_counters = vmU.state.perf_counters :=
  c4_unknown_opcode vmU 0xFC000000 rfl (by decide) (by decide) (by decide) (by decide)

/-- C4 counterexample: the opcode-0x3F step returns -1, which is
NANOCORE_ERROR, not the EXCEPTION event code 2 the claim names. -/
theorem c4_counterexample :
    (nanocore_vm_step vmU).2 = -1 ∧ (nanocore_vm_step vmU).2 ≠ EVENT_EXCEPTION ∧
      (nanocore_vm_step vmU).1.halted = true ∧
      (nanocore_vm_step vmU).1.state.perf_counters.getD 0 0 = 0 := by
  decide

/-- C5 (amended): halting through the HALT instruction sets flags bit 7,
but the code's other halt transitions (fetch bounds fault, unknown opcode)
leave bit 7 clear, so `halted implies bit 7` does not hold in every
reachable state. -/
theorem c5_halt_sets_bit7 (vm : vm_instance_t) (instr : Nat)
    (hop : opcode_of instr = 0x21) :
    (execute_instruction vm instr).1.halted = true ∧
      (execute_instruction vm instr).1.state.flags.testBit 7 = true := by
  rw [execute_instruction_halt vm instr hop]
  refine ⟨rfl, ?_⟩
  show ((zero_r0 vm).state.flags ||| 0x80).testBit 7 = true
  simp [Nat.testBit_or, show Nat.testBit 0x80 7 = true from rfl]

/-- Witness for C5 on a concrete HALT word. -/
theorem c5_halt_sets_bit7_witness :
    (execute_instruction vmH 0x84000000).1.halted = true ∧
      (execute_instruction vmH 0x84000000).1.state.flags.testBit 7 = true :=
  c5_halt_sets_bit7 vmH 0x84000000 (by decide)

/-- C5 counterexample: the instance created with 4 bytes of memory halts on
its first step (PC 0x10000 is out of range) with flags bit 7 still clear. -/
theorem c5_counterexample :
    nanocore_vm_create 4 = some vmC5 ∧ (nanocore_vm_step vmC5).1.halted = true ∧
      (nanocore_vm_step vmC5).1.state.flags.testBit 7 = false := by
  decide

/-- C6: a taken BEQ, BNE, or BLT sets the PC observed after the step to the
branch's own address plus the sign-extended 16-bit immediate shifted left
by one (all modulo 2^64). -/
theorem c6_branch_target (vm : vm_instance_t) (instr : Nat) (hh : vm.halted = false)
    (hb : u64 (vm.state.pc + 4) ≤ vm.memory_size) (hnb : vm.state.pc ∉ vm.breakpoints)
    (hf : load32 vm.memory vm.state.pc = instr) (h0 : vm.state.gprs.getD 0 0 = 0)
    (ht : (opcode_of instr = 0x17 ∧ gpr vm (rd_of instr) = gpr vm (rs1_of instr)) ∨
      (opcode_of instr = 0x18 ∧ gpr vm (rd_of instr) ≠ gpr vm (rs1_of instr)) ∨
      (opcode_of instr = 0x19 ∧
        toInt64 (gpr vm (rd_of instr)) < toInt64 (gpr vm (rs1_of instr)))) :
    (nanocore_vm_step vm).1.state.pc = u64 (vm.state.pc + ofInt64 (imm_s instr * 2)) := by
  unfold nanocore_vm_step
  rw [if_neg (by simp [hh]), if_neg (Nat.not_lt.mpr hb), if_neg hnb, hf]
  calc (execute_instruction
          { vm with state := { vm.state with pc := u64 (vm.state.pc + 4) } } instr).1.state.pc
      = u64 (u64 (vm.state.pc + 4) + ofInt64 (imm_s instr * 2 - 4)) :=
        execute_instruction_branch_taken _ instr h0 ht
    _ = u64 (vm.state.pc + ofInt64 (imm_s instr * 2)) :=
        branch_wrap_arith vm.state.pc (imm_s instr)

/-- Witness for C6: `BEQ R0, R0, +3` at PC 0 lands on 0 + (3 << 1) = 6. -/
theorem c6_branch_target_witness :
    (nanocore_vm_step vmBr).1.state.pc = u64 (vmBr.state.pc + ofInt64 (imm_s 0x5C000003 * 2)) :=
  c6_branch_target vmBr 0x5C000003 rfl (by decide) (by decide) (by decide) (by decide)
    (Or.inl ⟨by decide, by decide⟩)

/-- C7: gprs[0] is 0 in the created instance and after any sequence of API
operations, and vm_set_register with index 0 is a no-op that returns OK. -/
theorem c7_r0_zero (size : Nat) (vm0 : vm_instance_t)
    (hc : nanocore_vm_create size = some vm0) (ops : List api_op) (v : Nat) :
    (apply_ops vm0 ops).state.gprs.getD 0 0 = 0 ∧
      ∀ vm : vm_instance_t, nanocore_vm_set_register vm 0 v = (vm, NANOCORE_OK) := by
  refine ⟨apply_ops_gpr0 ops vm0 (create_gpr0 size vm0 hc), ?_⟩
  intro vm
  rfl

/-- Witness for C7 on a concrete instance, one step, and one register
write. -/
theorem c7_r0_zero_witness :
    (apply_ops vmC5 [api_op.step, api_op.set_register 3 99]).state.gprs.getD 0 0 = 0 ∧
      ∀ vm : vm_instance_t, nanocore_vm_set_register vm 0 7 = (vm, NANOCORE_OK) :=
  c7_r0_zero 4 vmC5 (by decide) [api_op.step, api_op.set_register 3 99] 7

/-- C8 (amended): vm_step checks only that pc + 4 (uint64) does not exceed
memory_size — failing that it halts and returns NANOCORE_ERROR — and
performs no alignment check: an in-range misaligned PC is fetched and
executed normally. -/
theorem c8_fetch_bounds (vm : vm_instance_t) (hh : vm.halted = false) :
    (vm.memory_size < u64 (vm.state.pc + 4) →
      nanocore_vm_step vm = ({ vm with halted := true }, NANOCORE_ERROR)) ∧
      (u64 (vm.state.pc + 4) ≤ vm.memory_size → vm.state.pc ∉ vm.breakpoints →
        nanocore_vm_step vm =
          execute_instruction
            { vm with state := { vm.state with pc := u64 (vm.state.pc + 4) } }
            (load32 vm.memory vm.state.pc)) := by
  constructor
  · intro hlt
    unfold nanocore_vm_step
    rw [if_neg (by simp [hh]), if_pos hlt]
  · intro hle hnb
    unfold nanocore_vm_step
    rw [if_neg (by simp [hh]), if_neg (Nat.not_lt.mpr hle), if_neg hnb]

/-- Witness for C8: the out-of-range PC of the 4-byte instance halts with
ERROR, and the misaligned PC 2 proceeds to fetch and execute. -/
theorem c8_fetch_bounds_witness :
    nanocore_vm_step vmC5 = ({ vmC5 with halted := true }, NANOCORE_ERROR) ∧
      nanocore_vm_step vmMis =
        execute_instruction
          { vmMis with state := { vmMis.state with pc := u64 (vmMis.state.pc + 4) } }
          (load32 vmMis.memory vmMis.state.pc) :=
  ⟨(c8_fetch_bounds vmC5 rfl).1 (by decide),
    (c8_fetch_bounds vmMis rfl).2 (by decide) (by decide)⟩

/-- C8 counterexample: at the misaligned in-range PC 2 the step executes
normally (OK, no halt, PC advances), instead of halting with ERROR as the
claimed alignment requirement would demand. -/
theorem c8_counterexample :
    vmMis.state.pc % 4 ≠ 0 ∧ (nanocore_vm_step vmMis).2 = NANOCORE_OK ∧
      (nanocore_vm_step vmMis).2 ≠ NANOCORE_ERROR ∧
      (nanocore_vm_step vmMis).1.halted = false ∧
      (nanocore_vm_step vmMis).1.state.pc = 6 := by
  decide

/-- C9 (amended): the breakpoint table never exceeds 64 entries and
set_breakpoint fails exactly when 64 are present, but the failure code is
NANOCORE_ERROR (not EINVAL) and below 64 the address is appended without a
duplicate check, so the table can contain duplicates. -/
theorem c9_breakpoint_bounds (size : Nat) (vm0 : vm_instance_t)
    (hc : nanocore_vm_create size = some vm0) (ops : List api_op) (addr : Nat) :
    (apply_ops vm0 ops).breakpoints.length ≤ 64 ∧
      (∀ vm : vm_instance_t, 64 ≤ vm.breakpoints.length →
        nanocore_vm_set_breakpoint vm addr = (vm, NANOCORE_ERROR)) ∧
      (∀ vm : vm_instance_t, vm.breakpoints.length < 64 →
        nanocore_vm_set_breakpoint vm addr =
          ({ vm with breakpoints := vm.breakpoints ++ [addr] }, NANOCORE_OK)) := by
  refine ⟨?_, ?_, ?_⟩
  · refine apply_ops_bplen ops vm0 ?_
    rw [create_breakpoints size vm0 hc]
    exact Nat.zero_le 64
  · intro vm h
    unfold nanocore_vm_set_breakpoint
    rw [if_pos h]
  · intro vm h
    unfold nanocore_vm_set_breakpoint
    rw [if_neg (Nat.not_le.mpr h)]

/-- Witness for C9 on a concrete instance and breakpoint tables of length
64 and 0. -/
theorem c9_breakpoint_bounds_witness :
    (apply_ops vmC5 [api_op.set_breakpoint 5, api_op.set_breakpoint 5]).breakpoints.length ≤
        64 ∧
      (∀ vm : vm_instance_t, 64 ≤ vm.breakpoints.length →
        nanocore_vm_set_breakpoint vm 7 = (vm, NANOCORE_ERROR)) ∧
      (∀ vm : vm_instance_t, vm.breakpoints.length < 64 →
        nanocore_vm_set_breakpoint vm 7 =
          ({ vm with breakpoints := vm.breakpoints ++ [7] }, NANOCORE_OK)) :=
  c9_breakpoint_bounds 4 vmC5 (by decide)
    [api_op.set_breakpoint 5, api_op.set_breakpoint 5] 7

set_option maxRecDepth 100000 in
/-- C9 counterexample: setting the same address twice stores it twice, so
the table is not duplicate-free; and with 64 breakpoints present the next
set_breakpoint returns NANOCORE_ERROR, not EINVAL. -/
theorem c9_counterexample :
    (apply_ops vmC5 [api_op.set_breakpoint 5, api_op.set_breakpoint 5]).breakpoints =
        [5, 5] ∧
      ¬ (apply_ops vmC5
          [api_op.set_breakpoint 5, api_op.set_breakpoint 5]).breakpoints.Nodup ∧
      (nanocore_vm_set_breakpoint
          (apply_ops vmC5 (List.replicate 64 (api_op.set_breakpoint 9))) 1).2 =
        NANOCORE_ERROR ∧
      (nanocore_vm_set_breakpoint
          (apply_ops vmC5 (List.replicate 64 (api_op.set_breakpoint 9))) 1).2 ≠
        NANOCORE_EINVAL := by
  decide

/-- C10: vm_reset leaves the memory buffer and memory_size untouched,
zeroes the whole processor state except sp = memory_size - 8 (uint64) and
pc = 0x10000, clears the halted flag, and empties the breakpoint set,
returning OK. -/
theorem c10_reset_frame (vm : vm_instance_t) :
    (nanocore_vm_reset vm).1.memory = vm.memory ∧
      (nanocore_vm_reset vm).1.memory_size = vm.memory_size ∧
      (nanocore_vm_reset vm).1.state = mk_state 0x10000 (sub64 vm.memory_size 8) ∧
      (nanocore_vm_reset vm).1.halted = false ∧
      (nanocore_vm_reset vm).1.breakpoints = [] ∧
      (nanocore_vm_reset vm).2 = NANOCORE_OK :=
  ⟨rfl, rfl, rfl, rfl, rfl, rfl⟩
